import Mathlib

/-!
Shallow embedding of `klippy/extras/just_a_quad_gantry_level.py`.

The module levels a four-actuator gantry: given four probed position
samples and per-axis offsets, `probe_finalize` mirrors the auxiliary-axis
readings, runs two rounds of two-point line fits, derives four actuator
heights, and turns them into adjustments (mean minus height).  If the
maximum adjustment exceeds the configured `max_adjust` it raises a gcode
error, otherwise it asks the stepper helper to move.

Python floats are modelled as exact rationals (`ℚ`); Python's
`ZeroDivisionError` in `linefit` is modelled separately by
`linefitChecked`, which returns `none` exactly when the Python code would
reach a division whose denominator is zero.
-/

namespace QGL

/-- The function `linefit(self, p1, p2)`.  Mirrors the source:
if the two y-values are equal it returns `(0, p1[1])`, otherwise it
computes `m = (p2[1] - p1[1]) / (p2[0] - p1[0])` and
`b = p1[1] - m * p1[0]`.  Over `ℚ` division is total (`x / 0 = 0`), so
this definition is everywhere defined; `linefitChecked` below tracks
where the Python original would raise `ZeroDivisionError`. -/
def linefit (p1 p2 : ℚ × ℚ) : ℚ × ℚ :=
  if p1.2 = p2.2 then
    (0, p1.2)
  else
    let m := (p2.2 - p1.2) / (p2.1 - p1.1)
    (m, p1.2 - m * p1.1)

/-- The function `linefit` with Python's exception behaviour made explicit:
`none` models the `ZeroDivisionError` raised when the division
`(p2[1] - p1[1]) / (p2[0] - p1[0])` is reached (y-values differ) and its
denominator `p2[0] - p1[0]` is zero. -/
def linefitChecked (p1 p2 : ℚ × ℚ) : Option (ℚ × ℚ) :=
  if p1.2 = p2.2 then
    some (0, p1.2)
  else if p2.1 - p1.1 = 0 then
    none
  else
    let m := (p2.2 - p1.2) / (p2.1 - p1.1)
    some (m, p1.2 - m * p1.1)

/-- The function `plot(self, f, x)`: evaluate the affine function
`f = (m, b)` at `x`, i.e. `f[0] * x + f[1]`. -/
def plot (f : ℚ × ℚ) (x : ℚ) : ℚ := f.1 * x + f.2

/-- One probed position sample.  The source reads coordinates `p[0]`
(field `x`), `p[1]` (field `y`) and `p[3]` (field `a`, the auxiliary
axis reading). -/
structure Sample where
  x : ℚ
  y : ℚ
  a : ℚ
deriving DecidableEq, Repr

/-- The probe offsets; the source reads `offsets[0]` (field `x`) and
`offsets[1]` (field `y`). -/
structure Offsets where
  x : ℚ
  y : ℚ
deriving DecidableEq, Repr

/-- One configured gantry corner, an XY pair. -/
structure Corner where
  x : ℚ
  y : ℚ
deriving DecidableEq, Repr

/-- The four position samples `positions[0] .. positions[3]` of one
probing round. -/
structure Positions where
  p0 : Sample
  p1 : Sample
  p2 : Sample
  p3 : Sample
deriving DecidableEq, Repr

/-- Everything `probe_finalize` reads in one round: the configured
`max_adjust`, `horizontal_move_a` and the two used gantry corners
(`self.gantry_corners[0]` and `self.gantry_corners[1]`), together with
the per-round `offsets` and `positions` arguments. -/
structure Round where
  max_adjust : ℚ
  horizontal_move_a : ℚ
  gantry_corner0 : Corner
  gantry_corner1 : Corner
  offsets : Offsets
  positions : Positions
deriving DecidableEq, Repr

/-- `a_positions = [self.horizontal_move_a - p[3] for p in positions]`. -/
def a_positions (r : Round) : List ℚ :=
  [r.horizontal_move_a - r.positions.p0.a,
   r.horizontal_move_a - r.positions.p1.a,
   r.horizontal_move_a - r.positions.p2.a,
   r.horizontal_move_a - r.positions.p3.a]

/-- `ppx0 = [positions[0][0] + offsets[0], a_positions[0]]`. -/
def ppx0 (r : Round) : ℚ × ℚ :=
  (r.positions.p0.x + r.offsets.x, r.horizontal_move_a - r.positions.p0.a)

/-- `ppx3 = [positions[3][0] + offsets[0], a_positions[3]]`. -/
def ppx3 (r : Round) : ℚ × ℚ :=
  (r.positions.p3.x + r.offsets.x, r.horizontal_move_a - r.positions.p3.a)

/-- `slope_x_pp03 = self.linefit(ppx0, ppx3)`. -/
def slope_x_pp03 (r : Round) : ℚ × ℚ := linefit (ppx0 r) (ppx3 r)

/-- `ppx1 = [positions[1][0] + offsets[0], a_positions[1]]`. -/
def ppx1 (r : Round) : ℚ × ℚ :=
  (r.positions.p1.x + r.offsets.x, r.horizontal_move_a - r.positions.p1.a)

/-- `ppx2 = [positions[2][0] + offsets[0], a_positions[2]]`. -/
def ppx2 (r : Round) : ℚ × ℚ :=
  (r.positions.p2.x + r.offsets.x, r.horizontal_move_a - r.positions.p2.a)

/-- `slope_x_pp12 = self.linefit(ppx1, ppx2)`. -/
def slope_x_pp12 (r : Round) : ℚ × ℚ := linefit (ppx1 r) (ppx2 r)

/-- `a1 = [positions[0][1] + offsets[1], self.plot(slope_x_pp03, self.gantry_corners[0][0])]`. -/
def a1 (r : Round) : ℚ × ℚ :=
  (r.positions.p0.y + r.offsets.y, plot (slope_x_pp03 r) r.gantry_corner0.x)

/-- `a2 = [positions[1][1] + offsets[1], self.plot(slope_x_pp12, self.gantry_corners[0][0])]`. -/
def a2 (r : Round) : ℚ × ℚ :=
  (r.positions.p1.y + r.offsets.y, plot (slope_x_pp12 r) r.gantry_corner0.x)

/-- `slope_y_s01 = self.linefit(a1, a2)`. -/
def slope_y_s01 (r : Round) : ℚ × ℚ := linefit (a1 r) (a2 r)

/-- `b1 = [positions[0][1] + offsets[1], self.plot(slope_x_pp03, self.gantry_corners[1][0])]`. -/
def b1 (r : Round) : ℚ × ℚ :=
  (r.positions.p0.y + r.offsets.y, plot (slope_x_pp03 r) r.gantry_corner1.x)

/-- `b2 = [positions[1][1] + offsets[1], self.plot(slope_x_pp12, self.gantry_corners[1][0])]`. -/
def b2 (r : Round) : ℚ × ℚ :=
  (r.positions.p1.y + r.offsets.y, plot (slope_x_pp12 r) r.gantry_corner1.x)

/-- `slope_y_s23 = self.linefit(b1, b2)`. -/
def slope_y_s23 (r : Round) : ℚ × ℚ := linefit (b1 r) (b2 r)

/-- The list `a_height` after the four assignments
`a_height[0] = self.plot(slope_y_s01, self.gantry_corners[0][1])`,
`a_height[1] = self.plot(slope_y_s01, self.gantry_corners[1][1])`,
`a_height[2] = self.plot(slope_y_s23, self.gantry_corners[1][1])`,
`a_height[3] = self.plot(slope_y_s23, self.gantry_corners[0][1])`. -/
def a_height (r : Round) : List ℚ :=
  [plot (slope_y_s01 r) r.gantry_corner0.y,
   plot (slope_y_s01 r) r.gantry_corner1.y,
   plot (slope_y_s23 r) r.gantry_corner1.y,
   plot (slope_y_s23 r) r.gantry_corner0.y]

/-- `a_ave = sum(a_height) / len(a_height)`. -/
def a_ave (r : Round) : ℚ := (a_height r).sum / ((a_height r).length : ℚ)

/-- The list `a_adjust` built by `for a in a_height: a_adjust.append(a_ave - a)`. -/
def a_adjust (r : Round) : List ℚ := (a_height r).map (fun a => a_ave r - a)

/-- Python's `max` over a nonempty list: the fold of binary `max` from
the first element.  (Python raises on an empty list; the default value
for `[]` is never used here since `a_adjust` always has 4 entries.) -/
def pymax : List ℚ → ℚ
  | [] => 0
  | x :: xs => xs.foldl max x

/-- `adjust_max = max(a_adjust)`. -/
def adjust_max (r : Round) : ℚ := pymax (a_adjust r)

/-- The observable outcome of one `probe_finalize` round: either the
raised gcode error (whose message embeds, via `%0.6f`, the offending
`adjust_max` and the configured `max_adjust`, carried here as the two
payload fields), or the call `self.a_helper.adjust_steppers(a_adjust, speed)`
carrying the adjustment vector. -/
inductive FinalizeResult where
  | error (adjust_max : ℚ) (max_adjust : ℚ)
  | moved (a_adjust : List ℚ)
deriving DecidableEq, Repr

/-- The decision tail of `probe_finalize`: raise
`"Aborting quad_gantry_level required adjustment %0.6f is greater than
max_adjust %0.6f" % (adjust_max, self.max_adjust)` when
`adjust_max > self.max_adjust`, otherwise call
`adjust_steppers(a_adjust, speed)`. -/
def probe_finalize (r : Round) : FinalizeResult :=
  if adjust_max r > r.max_adjust then
    .error (adjust_max r) r.max_adjust
  else
    .moved (a_adjust r)

/-- The configuration values `__init__` validates: the probe points
parsed by `probe_a.ProbePointsHelper` and the parsed `gantry_corners`
lists. -/
structure InitConfig where
  probe_points : List (ℚ × ℚ)
  gantry_corners : List (ℚ × ℚ)
deriving DecidableEq, Repr

/-- The observable outcome of `__init__`: a raised `config.error` with
its message, or successful setup, which ends by registering the
`JUST_A_QUAD_GANTRY_LEVEL` command. -/
inductive InitResult where
  | configError (msg : String)
  | ok (commandRegistered : Bool)
deriving DecidableEq, Repr

/-- The validation control flow of `__init__`, in source order: first
`if len(self.probe_helper.probe_points) != 4: raise config.error(...)`,
then `if len(self.gantry_corners) < 2: raise config.error(...)`, and
only after both checks `self.gcode.register_command(...)`. -/
def qgl_init (c : InitConfig) : InitResult :=
  if c.probe_points.length ≠ 4 then
    .configError "Need exactly 4 probe points for quad_gantry_level"
  else if c.gantry_corners.length < 2 then
    .configError "quad_gantry_level requires at least two gantry_corners"
  else
    .ok true

/-- Whether an init outcome has registered the gcode command. -/
def InitResult.registered : InitResult → Bool
  | .configError _ => false
  | .ok b => b

/-- A concrete probing round whose adjustment vector is `[3, 3, 3, -9]`:
three probes flat at the reference height 5 and probe 3 reading `-7`,
with corners `(0,0)` and `(1,1)` and the default `max_adjust = 4`.  Its
signed maximum adjustment is `3 ≤ 4` while `|-9| = 9 > 4`. -/
def skewRound : Round where
  max_adjust := 4
  horizontal_move_a := 5
  gantry_corner0 := ⟨0, 0⟩
  gantry_corner1 := ⟨1, 1⟩
  offsets := ⟨0, 0⟩
  positions :=
    { p0 := ⟨0, 0, 5⟩
      p1 := ⟨0, 1, 5⟩
      p2 := ⟨1, 0, 5⟩
      p3 := ⟨1, 0, -7⟩ }

/-- The mirror image of `skewRound` (probe 3 reads `17`): its adjustment
vector is `[-3, -3, -3, 9]`, whose signed maximum `9` exceeds
`max_adjust = 4`. -/
def steepRound : Round where
  max_adjust := 4
  horizontal_move_a := 5
  gantry_corner0 := ⟨0, 0⟩
  gantry_corner1 := ⟨1, 1⟩
  offsets := ⟨0, 0⟩
  positions :=
    { p0 := ⟨0, 0, 5⟩
      p1 := ⟨0, 1, 5⟩
      p2 := ⟨1, 0, 5⟩
      p3 := ⟨1, 0, 17⟩ }

end QGL

namespace QGL

/-- Claim C4: for every pair of input points whose y-values are equal,
`linefit` returns slope 0 and intercept equal to that shared y-value,
independent of the two x-values (including when the x-values coincide). -/
theorem linefit_equal_y (x1 x2 y1 y2 : ℚ) (h : y1 = y2) :
    linefit (x1, y1) (x2, y2) = (0, y1) := by
  simp [linefit, h]

/-- Witness for C4: a concrete flat pair, with coinciding x-values. -/
theorem linefit_equal_y_witness :
    linefit ((3 : ℚ), 7) ((3 : ℚ), 7) = (0, 7) :=
  linefit_equal_y 3 3 7 7 rfl

/-- Claim C5: for every pair of points with distinct x-values, `linefit`
returns a pair `(m, b)` whose affine function passes through both
points, and it is the unique such pair. -/
theorem linefit_through_points (x1 y1 x2 y2 : ℚ) (h : x1 ≠ x2) :
    plot (linefit (x1, y1) (x2, y2)) x1 = y1 ∧
    plot (linefit (x1, y1) (x2, y2)) x2 = y2 ∧
    ∀ m b : ℚ, m * x1 + b = y1 → m * x2 + b = y2 →
      (m, b) = linefit (x1, y1) (x2, y2) := by
  have hx : x2 - x1 ≠ 0 := sub_ne_zero.mpr (Ne.symm h)
  by_cases hy : y1 = y2
  · subst hy
    refine ⟨by simp [linefit, plot], by simp [linefit, plot], ?_⟩
    intro m b h1 h2
    have hm : m = 0 := by
      have : m * (x2 - x1) = 0 := by linarith
      rcases mul_eq_zero.mp this with hm | hx0
      · exact hm
      · exact absurd hx0 hx
    subst hm
    simp only [linefit, if_pos rfl]
    simp only [zero_mul, zero_add] at h1
    exact Prod.ext rfl h1
  · have hfit : linefit (x1, y1) (x2, y2) =
        ((y2 - y1) / (x2 - x1), y1 - (y2 - y1) / (x2 - x1) * x1) := by
      simp [linefit, hy]
    refine ⟨?_, ?_, ?_⟩
    · rw [hfit]; simp only [plot]; ring
    · rw [hfit]
      simp only [plot]
      field_simp
      ring
    · intro m b h1 h2
      rw [hfit]
      have hm : m = (y2 - y1) / (x2 - x1) := by
        field_simp
        linarith
      subst hm
      have hb : b = y1 - (y2 - y1) / (x2 - x1) * x1 := by linarith
      exact Prod.ext rfl hb

/-- Witness for C5: the line through (0, 1) and (2, 5) is y = 2x + 1 and
passes through both points. -/
theorem linefit_through_points_witness :
    plot (linefit ((0 : ℚ), 1) ((2 : ℚ), 5)) 0 = 1 ∧
    plot (linefit ((0 : ℚ), 1) ((2 : ℚ), 5)) 2 = 5 :=
  ⟨(linefit_through_points 0 1 2 5 (by decide)).1,
   (linefit_through_points 0 1 2 5 (by decide)).2.1⟩

/-- Claim C10: the division guard in `linefit` is on y-equality, not
x-equality.  Whenever the x-values differ or the y-values agree, the
code reaches no zero-denominator division (`linefitChecked` succeeds and
agrees with the total model `linefit`); and the failing case is exactly
equal x-values with distinct y-values. -/
theorem linefit_division_guard (p1 p2 : ℚ × ℚ) :
    (p1.1 ≠ p2.1 ∨ p1.2 = p2.2 →
      linefitChecked p1 p2 = some (linefit p1 p2)) ∧
    (linefitChecked p1 p2 = none ↔ p1.1 = p2.1 ∧ p1.2 ≠ p2.2) := by
  constructor
  · intro h
    rcases h with hx | hy
    · by_cases hy : p1.2 = p2.2
      · simp [linefitChecked, linefit, hy]
      · have hx0 : p2.1 - p1.1 ≠ 0 := sub_ne_zero.mpr (Ne.symm hx)
        simp [linefitChecked, linefit, hy, hx0]
    · simp [linefitChecked, linefit, hy]
  · constructor
    · intro h
      by_cases hy : p1.2 = p2.2
      · simp [linefitChecked, hy] at h
      · by_cases hx : p2.1 - p1.1 = 0
        · exact ⟨(sub_eq_zero.mp hx).symm, hy⟩
        · simp [linefitChecked, hy, hx] at h
    · rintro ⟨hx, hy⟩
      have hx0 : p2.1 - p1.1 = 0 := sub_eq_zero.mpr hx.symm
      simp [linefitChecked, hy, hx0]

/-- Witness for C10: at x-values 1 ≠ 3 the checked fit succeeds. -/
theorem linefit_division_guard_witness :
    linefitChecked ((1 : ℚ), 2) ((3 : ℚ), 8) =
      some (linefit ((1 : ℚ), 2) ((3 : ℚ), 8)) :=
  (linefit_division_guard ((1 : ℚ), 2) ((3 : ℚ), 8)).1 (Or.inl (by decide))

/-- Helper: the adjustment vector of the concrete round `skewRound`,
evaluated through the whole pipeline. -/
theorem skewRound_a_adjust : a_adjust skewRound = [3, 3, 3, -9] := by
  norm_num [a_adjust, a_height, a_ave, slope_y_s01, slope_y_s23, a1, a2, b1, b2,
    slope_x_pp03, slope_x_pp12, ppx0, ppx1, ppx2, ppx3, linefit, plot, skewRound]

/-- Helper: the signed maximum adjustment of `skewRound`. -/
theorem skewRound_adjust_max : adjust_max skewRound = 3 := by
  rw [adjust_max, skewRound_a_adjust]
  norm_num [pymax, List.foldl, max_def]

/-- Helper: the adjustment vector of the concrete round `steepRound`. -/
theorem steepRound_a_adjust : a_adjust steepRound = [-3, -3, -3, 9] := by
  norm_num [a_adjust, a_height, a_ave, slope_y_s01, slope_y_s23, a1, a2, b1, b2,
    slope_x_pp03, slope_x_pp12, ppx0, ppx1, ppx2, ppx3, linefit, plot, steepRound]

/-- Helper: the signed maximum adjustment of `steepRound`. -/
theorem steepRound_adjust_max : adjust_max steepRound = 9 := by
  rw [adjust_max, steepRound_a_adjust]
  norm_num [pymax, List.foldl, max_def]

/-- Counterexample to claim C1 as stated: on `skewRound` the adjustment
`-9` has absolute value `9`, exceeding `max_adjust = 4`, yet
`probe_finalize` raises no error and invokes `adjust_steppers` — the
code gates on the signed maximum `max(a_adjust) = 3`, not on the
maximum absolute value. -/
theorem max_adjust_gate_not_absolute :
    (-9 : ℚ) ∈ a_adjust skewRound ∧
    skewRound.max_adjust < |(-9 : ℚ)| ∧
    probe_finalize skewRound = .moved (a_adjust skewRound) := by
  refine ⟨?_, ?_, ?_⟩
  · rw [skewRound_a_adjust]; norm_num
  · norm_num [skewRound]
  · have h : ¬ adjust_max skewRound > skewRound.max_adjust := by
      rw [skewRound_adjust_max]; norm_num [skewRound]
    rw [probe_finalize, if_neg h]

/-- Claim C1 as amended: whenever the signed maximum adjustment
`max(a_adjust)` exceeds the configured `max_adjust`, `probe_finalize`
raises the fatal gcode error carrying that maximum and the configured
ceiling in its message, and `adjust_steppers` is not invoked that
round. -/
theorem max_adjust_gate_aborts (r : Round) (h : r.max_adjust < adjust_max r) :
    probe_finalize r = .error (adjust_max r) r.max_adjust := by
  rw [probe_finalize, if_pos h]

/-- Witness for amended C1: `steepRound` has maximum adjustment 9 > 4
and aborts with the error carrying that maximum and the ceiling. -/
theorem max_adjust_gate_aborts_witness :
    steepRound.max_adjust < adjust_max steepRound ∧
    probe_finalize steepRound = .error (adjust_max steepRound) steepRound.max_adjust := by
  have h : steepRound.max_adjust < adjust_max steepRound := by
    rw [steepRound_adjust_max]; norm_num [steepRound]
  exact ⟨h, max_adjust_gate_aborts steepRound h⟩

/-- Claim C9: the `max_adjust` gate compares the signed maximum of the
adjustment vector, not the maximum absolute value: whenever
`max(a_adjust) ≤ max_adjust`, no error is raised and the stepper move is
issued (even when some adjustment lies below `-max_adjust`). -/
theorem max_adjust_gate_signed (r : Round) (h : adjust_max r ≤ r.max_adjust) :
    probe_finalize r = .moved (a_adjust r) := by
  rw [probe_finalize, if_neg (not_lt.mpr h)]

/-- Witness for C9: on `skewRound` the signed maximum is 3 ≤ 4 and the
move is issued, even though the adjustment `-9` lies below `-4`. -/
theorem max_adjust_gate_signed_witness :
    adjust_max skewRound ≤ skewRound.max_adjust ∧
    (-9 : ℚ) ∈ a_adjust skewRound ∧ (-9 : ℚ) < -skewRound.max_adjust ∧
    probe_finalize skewRound = .moved (a_adjust skewRound) := by
  have hle : adjust_max skewRound ≤ skewRound.max_adjust := by
    rw [skewRound_adjust_max]; norm_num [skewRound]
  exact ⟨hle, by rw [skewRound_a_adjust]; norm_num, by norm_num [skewRound],
    max_adjust_gate_signed skewRound hle⟩

/-- Claim C2: the four actuator heights use the crossed index mapping —
entry 0 is `slope_y_s01` evaluated at corner 0's Y, entry 1 is
`slope_y_s01` at corner 1's Y, entry 2 is `slope_y_s23` at corner 1's Y,
and entry 3 is `slope_y_s23` at corner 0's Y. -/
theorem actuator_height_cross_mapping (r : Round) :
    (a_height r).length = 4 ∧
    (a_height r).get ⟨0, by simp [a_height]⟩ =
      plot (slope_y_s01 r) r.gantry_corner0.y ∧
    (a_height r).get ⟨1, by simp [a_height]⟩ =
      plot (slope_y_s01 r) r.gantry_corner1.y ∧
    (a_height r).get ⟨2, by simp [a_height]⟩ =
      plot (slope_y_s23 r) r.gantry_corner1.y ∧
    (a_height r).get ⟨3, by simp [a_height]⟩ =
      plot (slope_y_s23 r) r.gantry_corner0.y :=
  ⟨rfl, rfl, rfl, rfl, rfl⟩

/-- Claim C3: for every 4-sample, 2-corner round, the four adjustments
(each the mean actuator height minus that actuator's height) sum to
exactly zero in exact rational arithmetic. -/
theorem adjustments_sum_zero (r : Round) : (a_adjust r).sum = 0 := by
  simp only [a_adjust, a_ave, a_height, List.map_cons, List.map_nil,
    List.sum_cons, List.sum_nil, List.length_cons, List.length_nil]
  push_cast
  ring

/-- Helper: `linefit` on two points with the same y-value is flat. -/
theorem linefit_flat (x₁ x₂ c : ℚ) : linefit (x₁, c) (x₂, c) = (0, c) := by
  simp [linefit]

/-- Helper: evaluating the flat fit `(0, c)` anywhere gives `c`. -/
theorem plot_flat (c x : ℚ) : plot (0, c) x = c := by
  simp [plot]

/-- Claim C6: when all four probe samples carry the same auxiliary-axis
value (so all four mirrored positions coincide), every computed
adjustment is exactly zero, for arbitrary probe XY positions, offsets
and gantry corners. -/
theorem level_gantry_zero_adjust (r : Round)
    (h1 : r.positions.p1.a = r.positions.p0.a)
    (h2 : r.positions.p2.a = r.positions.p0.a)
    (h3 : r.positions.p3.a = r.positions.p0.a) :
    a_adjust r = [0, 0, 0, 0] := by
  have hx03 : slope_x_pp03 r = (0, r.horizontal_move_a - r.positions.p0.a) := by
    rw [slope_x_pp03, ppx0, ppx3, h3, linefit_flat]
  have hx12 : slope_x_pp12 r = (0, r.horizontal_move_a - r.positions.p0.a) := by
    rw [slope_x_pp12, ppx1, ppx2, h1, h2, linefit_flat]
  have hy01 : slope_y_s01 r = (0, r.horizontal_move_a - r.positions.p0.a) := by
    rw [slope_y_s01, a1, a2, hx03, hx12, plot_flat, linefit_flat]
  have hy23 : slope_y_s23 r = (0, r.horizontal_move_a - r.positions.p0.a) := by
    rw [slope_y_s23, b1, b2, hx03, hx12, plot_flat, linefit_flat]
  have hh : a_height r =
      [r.horizontal_move_a - r.positions.p0.a,
       r.horizontal_move_a - r.positions.p0.a,
       r.horizontal_move_a - r.positions.p0.a,
       r.horizontal_move_a - r.positions.p0.a] := by
    rw [a_height, hy01, hy23, plot_flat, plot_flat]
  rw [a_adjust, a_ave, hh]
  generalize r.horizontal_move_a - r.positions.p0.a = c
  simp only [List.map_cons, List.map_nil, List.sum_cons, List.sum_nil,
    List.length_cons, List.length_nil, List.cons.injEq, and_true]
  norm_num
  ring

/-- Witness for C6: a concrete round with all auxiliary readings equal
to 5 and scattered XY data yields the zero adjustment vector. -/
theorem level_gantry_zero_adjust_witness :
    a_adjust
      { max_adjust := 4
        horizontal_move_a := 5
        gantry_corner0 := ⟨-3, 2⟩
        gantry_corner1 := ⟨7, 11⟩
        offsets := ⟨1, -2⟩
        positions :=
          { p0 := ⟨0, 1, 5⟩
            p1 := ⟨2, 3, 5⟩
            p2 := ⟨4, 5, 5⟩
            p3 := ⟨6, 7, 5⟩ } } = [0, 0, 0, 0] :=
  level_gantry_zero_adjust _ rfl rfl rfl

/-- Claim C7: setup raises a configuration error exactly when the probe
point count differs from 4 or fewer than 2 gantry corners are
configured, and in the error case the gcode command is never
registered. -/
theorem init_config_validation (c : InitConfig) :
    ((∃ msg, qgl_init c = .configError msg) ↔
      (c.probe_points.length ≠ 4 ∨ c.gantry_corners.length < 2)) ∧
    (∀ msg, qgl_init c = .configError msg → (qgl_init c).registered = false) := by
  unfold qgl_init
  by_cases h4 : c.probe_points.length ≠ 4
  · simp [h4, InitResult.registered]
  · by_cases h2 : c.gantry_corners.length < 2
    · simp [h4, h2, InitResult.registered]
    · simp [h4, h2, InitResult.registered]

/-- Witness for C7: the empty configuration errors out and registers no
command. -/
theorem init_config_validation_witness :
    (∃ msg, qgl_init ⟨[], []⟩ = .configError msg) ∧
    (qgl_init ⟨[], []⟩).registered = false :=
  ⟨(init_config_validation ⟨[], []⟩).1.mpr (Or.inl (by decide)),
   (init_config_validation ⟨[], []⟩).2
     "Need exactly 4 probe points for quad_gantry_level" rfl⟩

/-- Claim C8: each mirrored auxiliary-axis position is
`horizontal_move_a` minus the sample's 4th coordinate, and the two
X-axis fits are exactly `linefit` through probe pairs (0,3) and (1,2),
each point pairing the offset-corrected X position with the mirrored
auxiliary-axis position. -/
theorem x_axis_fits (r : Round) :
    a_positions r = [r.horizontal_move_a - r.positions.p0.a,
                     r.horizontal_move_a - r.positions.p1.a,
                     r.horizontal_move_a - r.positions.p2.a,
                     r.horizontal_move_a - r.positions.p3.a] ∧
    slope_x_pp03 r = linefit
      (r.positions.p0.x + r.offsets.x, (a_positions r).get ⟨0, by simp [a_positions]⟩)
      (r.positions.p3.x + r.offsets.x, (a_positions r).get ⟨3, by simp [a_positions]⟩) ∧
    slope_x_pp12 r = linefit
      (r.positions.p1.x + r.offsets.x, (a_positions r).get ⟨1, by simp [a_positions]⟩)
      (r.positions.p2.x + r.offsets.x, (a_positions r).get ⟨2, by simp [a_positions]⟩) :=
  ⟨rfl, rfl, rfl⟩

end QGL
